import Mathlib

/-
  Verification of the resilient request executor of the instantly-mcp-server
  repository (src/index.ts, `InstantlyClient.request`, lines 45-119).

  The executor is embedded shallowly: one HTTP attempt is an element of an
  outcome oracle `outcomes : Nat -> HttpOutcome α` (the k-th HTTP call, 0-based,
  either resolves with a parsed body or rejects with an axios-style error
  carrying an optional response).  The retry loop of the source is the
  fuel-structured recursion `requestLoop`; fuel starts at `maxAttempts` with the
  attempt counter at 0, so `fuel + attempt = maxAttempts` holds at every
  reachable state and the fuel-0 base case coincides with the loop guard
  `attempt < maxAttempts` turning false.  The run records the result, the final
  value of the `attempt` variable, an ordered trace of HTTP calls and sleeps,
  and the log events emitted on the way.
-/

namespace Instantly

/-- Retry configuration, mirroring `retryConfig` (src/index.ts lines 28-33):
maxAttempts, initialDelay, maxDelay, backoffFactor. -/
structure RetryPolicy where
  maxAttempts : Nat
  initialDelay : Nat
  maxDelay : Nat
  backoffFactor : Nat
deriving Repr, DecidableEq

/-- The parts of an axios error response the executor reads:
`status`, `statusText`, the `retry-after` header, and the `error` / `message`
fields of the parsed response body (each possibly absent). -/
structure RespInfo where
  status : Nat
  statusText : String
  retryAfter : Option String
  dataError : Option String
  dataMessage : Option String
deriving Repr, DecidableEq

/-- An axios-style request error: `response` is `none` for a network-level
failure (no response received), `message` is the transport error text. -/
structure HttpErr where
  response : Option RespInfo
  message : String
deriving Repr, DecidableEq

/-- Outcome of one HTTP attempt: axios resolves with a parsed body (2xx) or
rejects with an error value. -/
inductive HttpOutcome (α : Type) where
  | success (body : α)
  | failure (err : HttpErr)
deriving Repr, DecidableEq

/-- A JavaScript number as the executor computes delays: either a proper
integer value or NaN (as produced by `parseInt` on an unparseable string).
`setTimeout` treats NaN like 0, so a NaN delay fires immediately. -/
inductive JsNum where
  | nan
  | val (n : Int)
deriving Repr, DecidableEq

/-- Multiplication by 1000 on JavaScript numbers: NaN stays NaN. -/
def JsNum.mul1000 : JsNum → JsNum
  | .nan => .nan
  | .val n => .val (n * 1000)

/-- Result of `request`: the parsed body returned on 2xx, a thrown Error with
its message, or the TypeError that dereferencing an undefined `lastError`
at line 117 would raise (reachable only when the loop body never ran). -/
inductive ReqResult (α : Type) where
  | ok (body : α)
  | thrown (msg : String)
  | undefinedDeref
deriving Repr, DecidableEq

/-- Observable timing trace: the n-th HTTP call (1-based) and the sleeps
(`await setTimeout`) between attempts, in order. -/
inductive TraceEv where
  | httpCall (n : Nat)
  | sleep (ms : JsNum)
deriving Repr, DecidableEq

/-- Log events of the executor: the `console.error` of `errorDetails`
(src/index.ts lines 70-81: endpoint, method, url, attempt, response data,
message) and the two `console.log` retry notices (lines 94 and 110). -/
inductive LogEvent where
  | apiError (endpoint method url : String) (attempt : Nat)
      (resp : Option RespInfo) (message : String)
  | rateLimited (waitMs : JsNum)
  | retrying (delayMs attempt maxAttempts : Nat)
deriving Repr, DecidableEq

/-- State produced by the retry loop: final result, final value of the
`attempt` counter, timing trace, log events. -/
structure RunState (α : Type) where
  result : ReqResult α
  attempt : Nat
  trace : List TraceEv
  logs : List LogEvent
deriving Repr, DecidableEq

/-- Value of a hexadecimal digit character, if any. -/
def hexVal (c : Char) : Option Nat :=
  if '0' ≤ c ∧ c ≤ '9' then some (c.toNat - '0'.toNat)
  else if 'a' ≤ c ∧ c ≤ 'f' then some (c.toNat - 'a'.toNat + 10)
  else if 'A' ≤ c ∧ c ≤ 'F' then some (c.toNat - 'A'.toNat + 10)
  else none

/-- Longest digit prefix in the given base; `none` when no digit was read
(JavaScript `parseInt` returns NaN in that case). -/
def parseDigits (base : Nat) : List Char → Nat → Bool → Option Nat
  | [], acc, seen => if seen then some acc else none
  | c :: rest, acc, seen =>
    match hexVal c with
    | some d =>
      if d < base then parseDigits base rest (acc * base + d) true
      else if seen then some acc else none
    | none => if seen then some acc else none

/-- Whitespace skipped by JavaScript parseInt. -/
def isWs (c : Char) : Bool :=
  c = ' ' ∨ c = '\t' ∨ c = '\n' ∨ c = '\r'

/-- JavaScript `parseInt(s)` (radix unspecified): skip whitespace, optional
sign, optional `0x`/`0X` hex marker, then the longest digit prefix; NaN when
no digit follows. -/
def parseIntJS (s : String) : JsNum :=
  let cs := s.data.dropWhile isWs
  let (sign, cs1) : Int × List Char :=
    match cs with
    | '-' :: r => (-1, r)
    | '+' :: r => (1, r)
    | _ => (1, cs)
  let (base, cs2) : Nat × List Char :=
    match cs1 with
    | '0' :: 'x' :: r => (16, r)
    | '0' :: 'X' :: r => (16, r)
    | _ => (10, cs1)
  match parseDigits base cs2 0 false with
  | some n => .val (sign * n)
  | none => .nan

/-- JavaScript `h || '60'` on the `retry-after` header: `undefined` (absent)
and the empty string are falsy, anything else passes through. -/
def headerOr60 : Option String → String
  | none => "60"
  | some s => if s = "" then "60" else s

/-- Whether `error.response` has the given status (false for network errors),
as tested by `error.response?.status === s`. -/
def HttpErr.statusIs (e : HttpErr) (s : Nat) : Bool :=
  match e.response with
  | some r => r.status == s
  | none => false

/-- Whether a response was received (`error.response` truthy). -/
def HttpErr.responded (e : HttpErr) : Bool := e.response.isSome

/-- Whether `error.response.status < s` (false for network errors). -/
def HttpErr.statusLt (e : HttpErr) (s : Nat) : Bool :=
  match e.response with
  | some r => decide (r.status < s)
  | none => false

/-- The `retry-after` response header, when a response exists and carries it. -/
def HttpErr.retryAfterHeader (e : HttpErr) : Option String :=
  e.response.bind fun r => r.retryAfter

/-- Truthiness of an optional string under JavaScript `||`: absent and empty
are falsy. -/
def jsTruthy : Option String → Bool
  | none => false
  | some s => !(s == "")

/-- The cause text of the terminal error (src/index.ts line 117):
`lastError.response?.data?.error || lastError.response?.data?.message ||
lastError.message`. -/
def apiErrorOf (e : HttpErr) : String :=
  let d1 := e.response.bind fun r => r.dataError
  let d2 := e.response.bind fun r => r.dataMessage
  match (if jsTruthy d1 then d1 else d2) with
  | some s => if s = "" then e.message else s
  | none => e.message

/-- The terminal `throw` after the loop (src/index.ts lines 116-118).  When
`lastError` was never assigned (loop body never ran) the source would raise a
TypeError reading `.response` of `undefined`; that is `undefinedDeref`. -/
def terminalThrow {α : Type} (attempt : Nat) (lastError : Option HttpErr) :
    ReqResult α :=
  match lastError with
  | none => .undefinedDeref
  | some e =>
      .thrown ("Instantly API error after " ++ toString attempt ++
        " attempts: " ++ apiErrorOf e)

/-- What one failed attempt does next, following the source's sequence of
checks on the caught error with the already-incremented attempt counter `a`
(src/index.ts lines 83-112): 404 and 401 rethrow; 429 with attempts remaining
sleeps the retry-after duration and continues; any remaining response with
status < 500 breaks out of the loop; 5xx or network failure with attempts
remaining sleeps the backoff delay and continues; otherwise the loop exits
with no sleep. -/
inductive StepAct where
  | throwNow (msg : String)
  | breakLoop
  | sleepRetry (ms : JsNum) (log : LogEvent)
  | noSleep
deriving Repr, DecidableEq

/-- Classification of one caught error (src/index.ts lines 83-112), with `a`
the post-increment attempt counter. -/
def classify (p : RetryPolicy) (endpoint : String) (a : Nat) (err : HttpErr) :
    StepAct :=
  if err.statusIs 404 then
    .throwNow ("Endpoint not found: " ++ endpoint)
  else if err.statusIs 401 then
    .throwNow "Invalid API key"
  else if err.statusIs 429 ∧ a < p.maxAttempts then
    let ra := (parseIntJS (headerOr60 err.retryAfterHeader)).mul1000
    .sleepRetry ra (.rateLimited ra)
  else if err.responded ∧ err.statusLt 500 then
    .breakLoop
  else if a < p.maxAttempts then
    let delay := min (p.initialDelay * p.backoffFactor ^ (a - 1)) p.maxDelay
    .sleepRetry (.val (delay : Int)) (.retrying delay a p.maxAttempts)
  else
    .noSleep

/-- The retry loop of `InstantlyClient.request` (src/index.ts lines 52-118).
`fuel` is a structural bound instantiated to `p.maxAttempts`; since every
iteration increments `attempt` exactly once, `fuel + attempt = p.maxAttempts`
holds at every reachable state, and the guard `attempt < p.maxAttempts` is
false exactly when fuel runs out.  `calls` counts HTTP attempts already made
and indexes the outcome oracle. -/
def requestLoop {α : Type} (p : RetryPolicy) (endpoint method url : String)
    (outcomes : Nat → HttpOutcome α) :
    Nat → Nat → Nat → Option HttpErr → RunState α
  | 0, _, attempt, lastError =>
      { result := terminalThrow attempt lastError, attempt := attempt,
        trace := [], logs := [] }
  | fuel + 1, calls, attempt, lastError =>
      if attempt < p.maxAttempts then
        match outcomes calls with
        | .success body =>
            { result := .ok body, attempt := attempt,
              trace := [.httpCall (calls + 1)], logs := [] }
        | .failure err =>
            let a := attempt + 1
            let logE := LogEvent.apiError endpoint method url a
              err.response err.message
            match classify p endpoint a err with
            | .throwNow msg =>
                { result := .thrown msg, attempt := a,
                  trace := [.httpCall (calls + 1)], logs := [logE] }
            | .breakLoop =>
                { result := terminalThrow a (some err), attempt := a,
                  trace := [.httpCall (calls + 1)], logs := [logE] }
            | .sleepRetry ms lg =>
                let rest := requestLoop p endpoint method url outcomes
                  fuel (calls + 1) a (some err)
                { result := rest.result, attempt := rest.attempt,
                  trace := .httpCall (calls + 1) :: .sleep ms :: rest.trace,
                  logs := logE :: lg :: rest.logs }
            | .noSleep =>
                { result := terminalThrow a (some err), attempt := a,
                  trace := [.httpCall (calls + 1)], logs := [logE] }
      else
        { result := terminalThrow attempt lastError, attempt := attempt,
          trace := [], logs := [] }

/-- Full observable outcome of one `request` call: the url and auth headers it
builds, and the run state of the retry loop. -/
structure RequestRun (α : Type) where
  url : String
  headers : List (String × String)
  result : ReqResult α
  attempt : Nat
  trace : List TraceEv
  logs : List LogEvent
deriving Repr, DecidableEq

/-- `InstantlyClient.request` (src/index.ts lines 45-119): build url and
headers, then drive the retry loop from `attempt = 0`, `lastError`
unassigned. -/
def request {α : Type} (apiKey baseUrl endpoint method : String)
    (p : RetryPolicy) (outcomes : Nat → HttpOutcome α) : RequestRun α :=
  let url := baseUrl ++ endpoint
  let headers := [("Content-Type", "application/json"),
    ("Authorization", "Bearer " ++ apiKey)]
  let st := requestLoop p endpoint method url outcomes p.maxAttempts 0 0 none
  { url := url, headers := headers, result := st.result,
    attempt := st.attempt, trace := st.trace, logs := st.logs }

/-- Whether a trace event is an HTTP call. -/
def TraceEv.isCall : TraceEv → Bool
  | .httpCall _ => true
  | .sleep _ => false

/-- Number of HTTP attempts recorded in a trace. -/
def numCalls (t : List TraceEv) : Nat := (t.filter TraceEv.isCall).length

/-- The sleep durations of a trace, in order. -/
def sleepsOf : List TraceEv → List JsNum
  | [] => []
  | .sleep ms :: r => ms :: sleepsOf r
  | .httpCall _ :: r => sleepsOf r

/-- An outcome on which the loop keeps going when attempts remain: a failure
that is rate-limited (429), a network failure, or a 5xx. -/
def isContinuable {α : Type} : HttpOutcome α → Bool
  | .success _ => false
  | .failure e => e.statusIs 429 || !e.responded || !e.statusLt 500

/-- A rate-limited failure outcome. -/
def is429 {α : Type} : HttpOutcome α → Bool
  | .success _ => false
  | .failure e => e.statusIs 429

/-- The error carried by a failure outcome. -/
def errOpt {α : Type} : HttpOutcome α → Option HttpErr
  | .success _ => none
  | .failure e => some e

/-- Substring test on the underlying character lists. -/
def strContains (s sub : String) : Bool :=
  s.data.tails.any fun t => sub.data.isPrefixOf t

/-- Retry policy with the source defaults: 3 attempts, 1000 ms initial delay,
10000 ms cap, backoff factor 2. -/
def polDefault : RetryPolicy := ⟨3, 1000, 10000, 2⟩

/-- Retry policy allowing 2 attempts. -/
def polTwo : RetryPolicy := ⟨2, 1000, 10000, 2⟩

/-- Retry policy allowing 7 attempts, to exhibit the backoff cap. -/
def polSeven : RetryPolicy := ⟨7, 1000, 10000, 2⟩

/-- Degenerate policy with maxAttempts 0: the loop body never runs. -/
def polZero : RetryPolicy := ⟨0, 1000, 10000, 2⟩

/-- A response with the given status and retry-after header and no body
fields. -/
def mkResp (status : Nat) (ra : Option String) : RespInfo :=
  { status := status, statusText := "S", retryAfter := ra,
    dataError := none, dataMessage := none }

/-- An axios error carrying a response with the given status and retry-after
header. -/
def mkErr (status : Nat) (ra : Option String) : HttpErr :=
  { response := some (mkResp status ra),
    message := "Request failed with status code" }

/-- An oracle whose every attempt fails with the given status and header. -/
def outAll (status : Nat) (ra : Option String) : Nat → HttpOutcome Nat :=
  fun _ => .failure (mkErr status ra)

/-- A 500 response whose body carries both an error field and a message
field. -/
def respData : RespInfo :=
  ⟨500, "Internal Server Error", none, some "server overloaded",
    some "please retry later"⟩

/-- An axios error around `respData`. -/
def errData : HttpErr := ⟨some respData, "Request failed with status code 500"⟩

/-- An oracle whose every attempt fails with `errData`. -/
def outData : Nat → HttpOutcome Nat := fun _ => .failure errData

/-- A continuable failure that carries a response is a 429 or a 5xx. -/
theorem continuable_resp {err : HttpErr} {r : RespInfo} (herr : err.response = some r)
    (hc : (err.statusIs 429 || !err.responded || !err.statusLt 500) = true) :
    r.status = 429 ∨ 500 ≤ r.status := by
  simp [HttpErr.statusIs, HttpErr.responded, HttpErr.statusLt, herr] at hc
  omega

/-- The classifier schedules a retry sleep only while attempts remain. -/
theorem classify_sleepRetry_lt {p : RetryPolicy} {endpoint : String} {a : Nat}
    {err : HttpErr} {ms : JsNum} {lg : LogEvent}
    (h : classify p endpoint a err = .sleepRetry ms lg) : a < p.maxAttempts := by
  unfold classify at h
  split_ifs at h with h1 h2 h3 h4 h5
  · exact h3.2
  · exact h5

/-- The classifier schedules a retry sleep only on a 429, a network failure,
or a 5xx. -/
theorem classify_sleepRetry_continuable {p : RetryPolicy} {endpoint : String}
    {a : Nat} {err : HttpErr} {ms : JsNum} {lg : LogEvent}
    (h : classify p endpoint a err = .sleepRetry ms lg) :
    (err.statusIs 429 || !err.responded || !err.statusLt 500) = true := by
  unfold classify at h
  split_ifs at h with h1 h2 h3 h4 h5
  · simp [h3.1]
  · cases herr : err.response with
    | none => simp [HttpErr.responded, herr]
    | some r =>
      rw [Decidable.not_and_iff_or_not] at h4
      rcases h4 with h4 | h4
      · simp [HttpErr.responded, herr] at h4
      · simp [HttpErr.statusLt, herr] at h4 ⊢
        simp [HttpErr.statusIs, herr]
        omega

/-- On a 429, network failure or 5xx, the classifier either sleeps and
retries (attempts remaining) or lets the loop stop with no sleep. -/
theorem classify_continuable_cases {p : RetryPolicy} {endpoint : String}
    {a : Nat} {err : HttpErr}
    (hc : (err.statusIs 429 || !err.responded || !err.statusLt 500) = true) :
    (a < p.maxAttempts ∧ ∃ ms lg, classify p endpoint a err = .sleepRetry ms lg) ∨
    (¬ a < p.maxAttempts ∧
      (classify p endpoint a err = .breakLoop ∨
       classify p endpoint a err = .noSleep)) := by
  have h404 : err.statusIs 404 = false := by
    cases herr : err.response with
    | none => simp [HttpErr.statusIs, herr]
    | some r =>
      have := continuable_resp herr hc
      simp [HttpErr.statusIs, herr]
      omega
  have h401 : err.statusIs 401 = false := by
    cases herr : err.response with
    | none => simp [HttpErr.statusIs, herr]
    | some r =>
      have := continuable_resp herr hc
      simp [HttpErr.statusIs, herr]
      omega
  by_cases hlt : a < p.maxAttempts
  · left
    refine ⟨hlt, ?_⟩
    unfold classify
    rw [h404, h401]
    simp only [Bool.false_eq_true, if_false]
    by_cases h429 : err.statusIs 429 = true
    · rw [if_pos ⟨h429, hlt⟩]
      exact ⟨_, _, rfl⟩
    · rw [if_neg (fun hh => h429 hh.1)]
      have hbreak : ¬ ((err.responded = true) ∧ (err.statusLt 500 = true)) := by
        cases herr : err.response with
        | none => intro hh; simp [HttpErr.responded, herr] at hh
        | some r =>
          have hd := continuable_resp herr hc
          intro hh
          rcases hd with hd | hd
          · exact h429 (by simp [HttpErr.statusIs, herr, hd])
          · have := hh.2
            simp [HttpErr.statusLt, herr] at this
            omega
      rw [if_neg hbreak, if_pos hlt]
      exact ⟨_, _, rfl⟩
  · right
    refine ⟨hlt, ?_⟩
    unfold classify
    rw [h404, h401]
    simp only [Bool.false_eq_true, if_false]
    rw [if_neg (fun hh => hlt hh.2)]
    by_cases hbreak : (err.responded = true) ∧ (err.statusLt 500 = true)
    · rw [if_pos hbreak]
      left
      rfl
    · rw [if_neg hbreak, if_neg hlt]
      right
      rfl

/-- Classifier on a 404 response: rethrow with the endpoint in the message. -/
theorem classify_404 {p : RetryPolicy} {endpoint : String} {a : Nat}
    {err : HttpErr} {r : RespInfo}
    (herr : err.response = some r) (hs : r.status = 404) :
    classify p endpoint a err = .throwNow ("Endpoint not found: " ++ endpoint) := by
  simp [classify, HttpErr.statusIs, herr, hs]

/-- Classifier on a 401 response: rethrow the fixed credential message. -/
theorem classify_401 {p : RetryPolicy} {endpoint : String} {a : Nat}
    {err : HttpErr} {r : RespInfo}
    (herr : err.response = some r) (hs : r.status = 401) :
    classify p endpoint a err = .throwNow "Invalid API key" := by
  simp [classify, HttpErr.statusIs, herr, hs]

/-- Classifier on a 429 with attempts remaining: sleep the retry-after
duration (seconds times 1000, default 60 when the header is falsy). -/
theorem classify_429_remain {p : RetryPolicy} {endpoint : String} {a : Nat}
    {err : HttpErr} {r : RespInfo}
    (herr : err.response = some r) (hs : r.status = 429)
    (hrem : a < p.maxAttempts) :
    classify p endpoint a err =
      .sleepRetry ((parseIntJS (headerOr60 r.retryAfter)).mul1000)
        (.rateLimited ((parseIntJS (headerOr60 r.retryAfter)).mul1000)) := by
  simp [classify, HttpErr.statusIs, HttpErr.retryAfterHeader, herr, hs, hrem]

/-- Classifier on a network failure with attempts remaining: exponential
backoff sleep. -/
theorem classify_net_remain {p : RetryPolicy} {endpoint : String} {a : Nat}
    {err : HttpErr}
    (herr : err.response = none) (hrem : a < p.maxAttempts) :
    classify p endpoint a err =
      .sleepRetry (.val ((min (p.initialDelay * p.backoffFactor ^ (a - 1))
          p.maxDelay : Nat) : Int))
        (.retrying (min (p.initialDelay * p.backoffFactor ^ (a - 1)) p.maxDelay)
          a p.maxAttempts) := by
  simp [classify, HttpErr.statusIs, HttpErr.responded, HttpErr.statusLt, herr, hrem]

/-- Classifier on a 5xx with attempts remaining: exponential backoff sleep. -/
theorem classify_5xx_remain {p : RetryPolicy} {endpoint : String} {a : Nat}
    {err : HttpErr} {r : RespInfo}
    (herr : err.response = some r) (hs : 500 ≤ r.status)
    (hrem : a < p.maxAttempts) :
    classify p endpoint a err =
      .sleepRetry (.val ((min (p.initialDelay * p.backoffFactor ^ (a - 1))
          p.maxDelay : Nat) : Int))
        (.retrying (min (p.initialDelay * p.backoffFactor ^ (a - 1)) p.maxDelay)
          a p.maxAttempts) := by
  have h1 : err.statusIs 404 = false := by
    simp [HttpErr.statusIs, herr]
    omega
  have h2 : err.statusIs 401 = false := by
    simp [HttpErr.statusIs, herr]
    omega
  have h3 : err.statusIs 429 = false := by
    simp [HttpErr.statusIs, herr]
    omega
  have h4 : err.statusLt 500 = false := by
    simp [HttpErr.statusLt, herr]
    omega
  simp [classify, h1, h2, h3, h4, hrem]

/-- Classifier on any other response below 500: break out of the loop. -/
theorem classify_other4xx {p : RetryPolicy} {endpoint : String} {a : Nat}
    {err : HttpErr} {r : RespInfo}
    (herr : err.response = some r) (hs : r.status < 500)
    (h404 : r.status ≠ 404) (h401 : r.status ≠ 401) (h429 : r.status ≠ 429) :
    classify p endpoint a err = .breakLoop := by
  have h1 : err.statusIs 404 = false := by simp [HttpErr.statusIs, herr, h404]
  have h2 : err.statusIs 401 = false := by simp [HttpErr.statusIs, herr, h401]
  have h3 : err.statusIs 429 = false := by simp [HttpErr.statusIs, herr, h429]
  have h4 : err.responded = true := by simp [HttpErr.responded, herr]
  have h5 : err.statusLt 500 = true := by simp [HttpErr.statusLt, herr, hs]
  simp [classify, h1, h2, h3, h4, h5]

/-- The loop with no fuel left returns the terminal state. -/
theorem requestLoop_zero {α : Type} (p : RetryPolicy) (e m u : String)
    (o : Nat → HttpOutcome α) (calls attempt : Nat) (le : Option HttpErr) :
    requestLoop p e m u o 0 calls attempt le =
      { result := terminalThrow attempt le, attempt := attempt,
        trace := [], logs := [] } := rfl

/-- One loop step on a successful attempt: return the body, stop. -/
theorem requestLoop_success {α : Type} {p : RetryPolicy} {e m u : String}
    {o : Nat → HttpOutcome α} {fuel calls attempt : Nat} {le : Option HttpErr}
    {body : α}
    (hlt : attempt < p.maxAttempts) (houtc : o calls = .success body) :
    requestLoop p e m u o (fuel + 1) calls attempt le =
      { result := .ok body, attempt := attempt,
        trace := [.httpCall (calls + 1)], logs := [] } := by
  simp [requestLoop, hlt, houtc]

/-- One loop step on a failure the classifier rethrows (404 or 401). -/
theorem requestLoop_throw {α : Type} {p : RetryPolicy} {e m u : String}
    {o : Nat → HttpOutcome α} {fuel calls attempt : Nat} {le : Option HttpErr}
    {err : HttpErr} {msg : String}
    (hlt : attempt < p.maxAttempts) (houtc : o calls = .failure err)
    (hcl : classify p e (attempt + 1) err = .throwNow msg) :
    requestLoop p e m u o (fuel + 1) calls attempt le =
      { result := .thrown msg, attempt := attempt + 1,
        trace := [.httpCall (calls + 1)],
        logs := [.apiError e m u (attempt + 1) err.response err.message] } := by
  simp [requestLoop, hlt, houtc, hcl]

/-- One loop step on a failure that breaks or exhausts the loop: terminal
throw from the just-recorded last error, no sleep. -/
theorem requestLoop_stop {α : Type} {p : RetryPolicy} {e m u : String}
    {o : Nat → HttpOutcome α} {fuel calls attempt : Nat} {le : Option HttpErr}
    {err : HttpErr}
    (hlt : attempt < p.maxAttempts) (houtc : o calls = .failure err)
    (hcl : classify p e (attempt + 1) err = .breakLoop ∨
           classify p e (attempt + 1) err = .noSleep) :
    requestLoop p e m u o (fuel + 1) calls attempt le =
      { result := terminalThrow (attempt + 1) (some err), attempt := attempt + 1,
        trace := [.httpCall (calls + 1)],
        logs := [.apiError e m u (attempt + 1) err.response err.message] } := by
  rcases hcl with hcl | hcl <;> simp [requestLoop, hlt, houtc, hcl]

/-- One loop step on a failure the classifier retries: record the call, the
sleep and the two log lines, then continue with one less unit of fuel. -/
theorem requestLoop_sleep {α : Type} {p : RetryPolicy} {e m u : String}
    {o : Nat → HttpOutcome α} {fuel calls attempt : Nat} {le : Option HttpErr}
    {err : HttpErr} {ms : JsNum} {lg : LogEvent}
    (hlt : attempt < p.maxAttempts) (houtc : o calls = .failure err)
    (hcl : classify p e (attempt + 1) err = .sleepRetry ms lg) :
    requestLoop p e m u o (fuel + 1) calls attempt le =
      { result := (requestLoop p e m u o fuel (calls + 1) (attempt + 1) (some err)).result,
        attempt := (requestLoop p e m u o fuel (calls + 1) (attempt + 1) (some err)).attempt,
        trace := .httpCall (calls + 1) :: .sleep ms ::
          (requestLoop p e m u o fuel (calls + 1) (attempt + 1) (some err)).trace,
        logs := .apiError e m u (attempt + 1) err.response err.message :: lg ::
          (requestLoop p e m u o fuel (calls + 1) (attempt + 1) (some err)).logs } := by
  simp [requestLoop, hlt, houtc, hcl]

theorem numCalls_nil : numCalls [] = 0 := rfl

theorem numCalls_call_cons (n : Nat) (t : List TraceEv) :
    numCalls (.httpCall n :: t) = numCalls t + 1 := by
  simp [numCalls, TraceEv.isCall, List.filter]

theorem numCalls_sleep_cons (ms : JsNum) (t : List TraceEv) :
    numCalls (.sleep ms :: t) = numCalls t := by
  simp [numCalls, TraceEv.isCall, List.filter]


/-- Attempt-count bounds of the retry loop: at most `fuel` HTTP calls, and
when the loop runs at all, at least one call and the trace ends with an HTTP
call (never with a sleep). -/
theorem requestLoop_bounds {α : Type} (p : RetryPolicy) (e m u : String)
    (o : Nat → HttpOutcome α) :
    ∀ (fuel calls attempt : Nat) (le : Option HttpErr),
      fuel + attempt = p.maxAttempts →
      numCalls (requestLoop p e m u o fuel calls attempt le).trace ≤ fuel ∧
      (0 < fuel →
        0 < numCalls (requestLoop p e m u o fuel calls attempt le).trace ∧
        ∃ n, (requestLoop p e m u o fuel calls attempt le).trace.getLast? =
          some (.httpCall n)) := by
  intro fuel
  induction fuel with
  | zero =>
    intro calls attempt le _
    simp [requestLoop_zero, numCalls_nil]
  | succ fuel ih =>
    intro calls attempt le hinv
    have hlt : attempt < p.maxAttempts := by omega
    cases houtc : o calls with
    | success body =>
      rw [requestLoop_success hlt houtc]
      simp [numCalls_call_cons, numCalls_nil]
    | failure err =>
      cases hcl : classify p e (attempt + 1) err with
      | throwNow msg =>
        rw [requestLoop_throw hlt houtc hcl]
        simp [numCalls_call_cons, numCalls_nil]
      | breakLoop =>
        rw [requestLoop_stop hlt houtc (Or.inl hcl)]
        simp [numCalls_call_cons, numCalls_nil]
      | noSleep =>
        rw [requestLoop_stop hlt houtc (Or.inr hcl)]
        simp [numCalls_call_cons, numCalls_nil]
      | sleepRetry ms lg =>
        have hfuel : 0 < fuel := by
          have := classify_sleepRetry_lt hcl
          omega
        have hinv2 : fuel + (attempt + 1) = p.maxAttempts := by omega
        obtain ⟨hle, hpos⟩ := ih (calls + 1) (attempt + 1) (some err) hinv2
        obtain ⟨hpos1, n, hlast⟩ := hpos hfuel
        rw [requestLoop_sleep hlt houtc hcl]
        have hne : (requestLoop p e m u o fuel (calls + 1) (attempt + 1)
            (some err)).trace ≠ [] := by
          intro hnil
          rw [hnil] at hlast
          simp at hlast
        constructor
        · simp only [numCalls_call_cons, numCalls_sleep_cons]
          omega
        · intro _
          constructor
          · simp only [numCalls_call_cons, numCalls_sleep_cons]
            omega
          · refine ⟨n, ?_⟩
            rw [List.getLast?_cons_cons]
            cases htr : (requestLoop p e m u o fuel (calls + 1) (attempt + 1)
                (some err)).trace with
            | nil => exact absurd htr hne
            | cons hd tl =>
              rw [List.getLast?_cons_cons]
              rw [htr] at hlast
              exact hlast

/-- A terminal throw built from a recorded error is a thrown Error, not the
undefined dereference. -/
theorem terminalThrow_some_ne {α : Type} (attempt : Nat) (err : HttpErr) :
    (terminalThrow attempt (some err) : ReqResult α) ≠ .undefinedDeref := by
  simp [terminalThrow]

/-- Whenever the loop either still has fuel or `lastError` has been assigned,
its result is never the undefined dereference. -/
theorem requestLoop_ne_undef {α : Type} (p : RetryPolicy) (e m u : String)
    (o : Nat → HttpOutcome α) :
    ∀ (fuel calls attempt : Nat) (le : Option HttpErr),
      fuel + attempt = p.maxAttempts →
      (0 < fuel ∨ le.isSome = true) →
      (requestLoop p e m u o fuel calls attempt le).result ≠ .undefinedDeref := by
  intro fuel
  induction fuel with
  | zero =>
    intro calls attempt le _ hh
    rcases hh with hh | hh
    · omega
    · rw [requestLoop_zero]
      cases le with
      | none => simp at hh
      | some err => exact terminalThrow_some_ne attempt err
  | succ fuel ih =>
    intro calls attempt le hinv _
    have hlt : attempt < p.maxAttempts := by omega
    cases houtc : o calls with
    | success body =>
      rw [requestLoop_success hlt houtc]
      simp
    | failure err =>
      cases hcl : classify p e (attempt + 1) err with
      | throwNow msg =>
        rw [requestLoop_throw hlt houtc hcl]
        simp
      | breakLoop =>
        rw [requestLoop_stop hlt houtc (Or.inl hcl)]
        exact terminalThrow_some_ne (attempt + 1) err
      | noSleep =>
        rw [requestLoop_stop hlt houtc (Or.inr hcl)]
        exact terminalThrow_some_ne (attempt + 1) err
      | sleepRetry ms lg =>
        rw [requestLoop_sleep hlt houtc hcl]
        exact ih (calls + 1) (attempt + 1) (some err) (by omega) (Or.inr rfl)

/-- When every pending outcome is continuable (429, network failure or 5xx),
the loop consumes exactly its fuel in HTTP calls, increments the attempt
counter once per call, ends on an HTTP call, and throws the terminal error
built from the last consumed outcome. -/
theorem requestLoop_all_continuable {α : Type} (p : RetryPolicy) (e m u : String)
    (o : Nat → HttpOutcome α) :
    ∀ (fuel calls attempt : Nat) (le : Option HttpErr),
      fuel + attempt = p.maxAttempts →
      (∀ i, calls ≤ i → i < calls + fuel → isContinuable (o i) = true) →
      (requestLoop p e m u o fuel calls attempt le).attempt = attempt + fuel ∧
      numCalls (requestLoop p e m u o fuel calls attempt le).trace = fuel ∧
      (0 < fuel →
        (requestLoop p e m u o fuel calls attempt le).result =
          terminalThrow p.maxAttempts (errOpt (o (calls + fuel - 1))) ∧
        (requestLoop p e m u o fuel calls attempt le).trace.getLast? =
          some (.httpCall (calls + fuel))) := by
  intro fuel
  induction fuel with
  | zero =>
    intro calls attempt le _ _
    rw [requestLoop_zero]
    simp [numCalls_nil]
  | succ fuel ih =>
    intro calls attempt le hinv hall
    have hlt : attempt < p.maxAttempts := by omega
    have hci := hall calls (Nat.le_refl calls) (by omega)
    cases houtc : o calls with
    | success body =>
      rw [houtc] at hci
      simp [isContinuable] at hci
    | failure err =>
      rw [houtc] at hci
      simp only [isContinuable] at hci
      rcases @classify_continuable_cases p e (attempt + 1) err hci with
        ⟨hlt1, ms, lg, hcl⟩ | ⟨hge1, hcl⟩
      · have hfuel : 0 < fuel := by omega
        have hall2 : ∀ i, calls + 1 ≤ i → i < calls + 1 + fuel →
            isContinuable (o i) = true := by
          intro i h1 h2
          exact hall i (by omega) (by omega)
        obtain ⟨iha, ihn, ihr⟩ := ih (calls + 1) (attempt + 1) (some err)
          (by omega) hall2
        obtain ⟨ihres, ihlast⟩ := ihr hfuel
        rw [requestLoop_sleep hlt houtc hcl]
        refine ⟨by simp [iha]; omega, ?_, ?_⟩
        · simp only [numCalls_call_cons, numCalls_sleep_cons]
          omega
        · intro _
          constructor
          · have harith : calls + 1 + fuel - 1 = calls + (fuel + 1) - 1 := by omega
            rw [harith] at ihres
            exact ihres
          · have hne : (requestLoop p e m u o fuel (calls + 1) (attempt + 1)
                (some err)).trace ≠ [] := by
              intro hnil
              rw [hnil] at ihlast
              simp at ihlast
            rw [List.getLast?_cons_cons]
            cases htr : (requestLoop p e m u o fuel (calls + 1) (attempt + 1)
                (some err)).trace with
            | nil => exact absurd htr hne
            | cons hd tl =>
              rw [List.getLast?_cons_cons]
              rw [htr] at ihlast
              have harith : calls + 1 + fuel = calls + (fuel + 1) := by omega
              rw [harith] at ihlast
              exact ihlast
      · have hfuel : fuel = 0 := by omega
        subst hfuel
        rw [requestLoop_stop hlt houtc hcl]
        have hmax : attempt + 1 = p.maxAttempts := by omega
        refine ⟨rfl, by simp [numCalls_call_cons, numCalls_nil], fun _ => ?_⟩
        constructor
        · simp only [Nat.add_sub_cancel]
          rw [houtc, hmax]
          rfl
        · rfl

/-- Every consumed outcome except the last one is continuable: the loop only
goes on to another attempt after a 429, a network failure or a 5xx. -/
theorem requestLoop_mid_continuable {α : Type} (p : RetryPolicy) (e m u : String)
    (o : Nat → HttpOutcome α) :
    ∀ (fuel calls attempt : Nat) (le : Option HttpErr),
      fuel + attempt = p.maxAttempts →
      ∀ j, calls ≤ j →
        j + 1 < calls + numCalls (requestLoop p e m u o fuel calls attempt le).trace →
        isContinuable (o j) = true := by
  intro fuel
  induction fuel with
  | zero =>
    intro calls attempt le _ j hj1 hj2
    rw [requestLoop_zero] at hj2
    simp [numCalls_nil] at hj2
    omega
  | succ fuel ih =>
    intro calls attempt le hinv j hj1 hj2
    have hlt : attempt < p.maxAttempts := by omega
    cases houtc : o calls with
    | success body =>
      rw [requestLoop_success hlt houtc] at hj2
      simp [numCalls_call_cons, numCalls_nil] at hj2
      omega
    | failure err =>
      cases hcl : classify p e (attempt + 1) err with
      | throwNow msg =>
        rw [requestLoop_throw hlt houtc hcl] at hj2
        simp [numCalls_call_cons, numCalls_nil] at hj2
        omega
      | breakLoop =>
        rw [requestLoop_stop hlt houtc (Or.inl hcl)] at hj2
        simp [numCalls_call_cons, numCalls_nil] at hj2
        omega
      | noSleep =>
        rw [requestLoop_stop hlt houtc (Or.inr hcl)] at hj2
        simp [numCalls_call_cons, numCalls_nil] at hj2
        omega
      | sleepRetry ms lg =>
        rw [requestLoop_sleep hlt houtc hcl] at hj2
        simp only [numCalls_call_cons, numCalls_sleep_cons] at hj2
        rcases Nat.eq_or_lt_of_le hj1 with hj | hj
        · rw [← hj, houtc]
          simp only [isContinuable]
          exact classify_sleepRetry_continuable hcl
        · exact ih (calls + 1) (attempt + 1) (some err) (by omega) j hj (by omega)

/-- The result of `request` is the result of the retry loop started with
full fuel. -/
theorem request_result {α : Type} (apiKey baseUrl endpoint method : String)
    (p : RetryPolicy) (o : Nat → HttpOutcome α) :
    (request apiKey baseUrl endpoint method p o).result =
      (requestLoop p endpoint method (baseUrl ++ endpoint) o
        p.maxAttempts 0 0 none).result := rfl

/-- The trace of `request` is the trace of the retry loop started with
full fuel. -/
theorem request_trace {α : Type} (apiKey baseUrl endpoint method : String)
    (p : RetryPolicy) (o : Nat → HttpOutcome α) :
    (request apiKey baseUrl endpoint method p o).trace =
      (requestLoop p endpoint method (baseUrl ++ endpoint) o
        p.maxAttempts 0 0 none).trace := rfl

/-- The final attempt counter of `request` is that of the retry loop. -/
theorem request_attempt {α : Type} (apiKey baseUrl endpoint method : String)
    (p : RetryPolicy) (o : Nat → HttpOutcome α) :
    (request apiKey baseUrl endpoint method p o).attempt =
      (requestLoop p endpoint method (baseUrl ++ endpoint) o
        p.maxAttempts 0 0 none).attempt := rfl

/-- A rate-limited outcome is continuable. -/
theorem is429_continuable {α : Type} (o : HttpOutcome α) (h : is429 o = true) :
    isContinuable o = true := by
  cases o with
  | success body => simp [is429] at h
  | failure e =>
    simp only [is429] at h
    simp [isContinuable, h]


/-- Claim C1: for every call descriptor and every retry policy with
maxAttempts at least 1, `request` makes between 1 and maxAttempts HTTP
attempts inclusive, and never sleeps after the final attempt or after a
fatal classification — the trace always ends with an HTTP call. -/
theorem c1_attempt_bounds {α : Type} (apiKey baseUrl endpoint method : String)
    (p : RetryPolicy) (o : Nat → HttpOutcome α)
    (hmax : 1 ≤ p.maxAttempts) :
    1 ≤ numCalls (request apiKey baseUrl endpoint method p o).trace ∧
    numCalls (request apiKey baseUrl endpoint method p o).trace ≤ p.maxAttempts ∧
    ∃ n, (request apiKey baseUrl endpoint method p o).trace.getLast? =
      some (.httpCall n) := by
  have hr : (request apiKey baseUrl endpoint method p o).trace =
      (requestLoop p endpoint method (baseUrl ++ endpoint) o
        p.maxAttempts 0 0 none).trace := rfl
  obtain ⟨hle, hpos⟩ := requestLoop_bounds p endpoint method (baseUrl ++ endpoint)
    o p.maxAttempts 0 0 none (by omega)
  obtain ⟨h1, n, hlast⟩ := hpos (by omega)
  rw [hr]
  exact ⟨h1, hle, n, hlast⟩

/-- Witness for C1: the default policy against persistent 500s makes between
1 and 3 attempts and ends on an HTTP call. -/
theorem c1_attempt_bounds_witness :
    1 ≤ polDefault.maxAttempts ∧
    (1 ≤ numCalls (request "key" "b" "/e" "GET" polDefault (outAll 500 none)).trace ∧
     numCalls (request "key" "b" "/e" "GET" polDefault (outAll 500 none)).trace ≤
       polDefault.maxAttempts ∧
     ∃ n, (request "key" "b" "/e" "GET" polDefault (outAll 500 none)).trace.getLast? =
       some (.httpCall n)) :=
  ⟨by decide, c1_attempt_bounds "key" "b" "/e" "GET" polDefault (outAll 500 none)
    (by decide)⟩

/-- Counterexample to claim C2 as stated: a present but unparseable
`retry-after` header ("abc") does not default to 60 seconds; the computed
delay is NaN (the `setTimeout` fires immediately), not 60000 ms. -/
theorem c2_unparseable_header_counterexample :
    (request "key" "b" "/e" "GET" polTwo (outAll 429 (some "abc"))).trace =
      [.httpCall 1, .sleep .nan, .httpCall 2] ∧
    JsNum.nan ≠ JsNum.val (60 * 1000) :=
  ⟨by decide, by decide⟩

/-- Claim C2 (amended): on a 429 with attempts remaining, the loop sleeps
exactly `parseInt(retry-after) * 1000` ms before the next attempt, with the
60-second default applying when the header is absent or empty; a present but
unparseable header yields a NaN delay (no default).  The delay does not use
the backoff formula: it is unchanged under any policy with the same
maxAttempts. -/
theorem c2_retry_after_sleep {α : Type} (p p2 : RetryPolicy) (e m u : String)
    (o : Nat → HttpOutcome α) (fuel calls attempt : Nat) (le : Option HttpErr)
    (err : HttpErr) (r : RespInfo)
    (hinv : fuel + 1 + attempt = p.maxAttempts)
    (houtc : o calls = .failure err)
    (herr : err.response = some r) (hs : r.status = 429)
    (hrem : attempt + 1 < p.maxAttempts) :
    (requestLoop p e m u o (fuel + 1) calls attempt le).trace.take 2 =
      [.httpCall (calls + 1),
       .sleep ((parseIntJS (headerOr60 r.retryAfter)).mul1000)] ∧
    (r.retryAfter = none →
      (parseIntJS (headerOr60 r.retryAfter)).mul1000 = .val 60000) ∧
    (r.retryAfter = some "" →
      (parseIntJS (headerOr60 r.retryAfter)).mul1000 = .val 60000) ∧
    (∀ s, r.retryAfter = some s → s ≠ "" → parseIntJS s = .nan →
      (parseIntJS (headerOr60 r.retryAfter)).mul1000 = .nan) ∧
    (p2.maxAttempts = p.maxAttempts →
      (requestLoop p2 e m u o (fuel + 1) calls attempt le).trace.take 2 =
        [.httpCall (calls + 1),
         .sleep ((parseIntJS (headerOr60 r.retryAfter)).mul1000)]) := by
  refine ⟨?_, ?_, ?_, ?_, ?_⟩
  · rw [requestLoop_sleep (by omega) houtc (classify_429_remain herr hs hrem)]
    rfl
  · intro h
    rw [h]
    decide
  · intro h
    rw [h]
    decide
  · intro s hsome hne hnan
    rw [hsome]
    simp only [headerOr60, if_neg hne, hnan]
    rfl
  · intro hp2
    rw [requestLoop_sleep (by omega) houtc
      (classify_429_remain herr hs (by omega))]
    rfl

/-- Witness for C2 (amended): a 429 with `retry-after: 5` and attempts
remaining sleeps exactly 5000 ms. -/
theorem c2_retry_after_sleep_witness :
    (outAll 429 (some "5") 0 = .failure (mkErr 429 (some "5"))) ∧
    ((mkErr 429 (some "5")).response = some (mkResp 429 (some "5"))) ∧
    ((mkResp 429 (some "5")).status = 429) ∧
    (0 + 1 < polTwo.maxAttempts) ∧
    (requestLoop polTwo "/e" "GET" "b/e" (outAll 429 (some "5")) (1 + 1) 0 0
      none).trace.take 2 = [.httpCall 1, .sleep (.val 5000)] :=
  ⟨rfl, rfl, rfl, by decide,
   (c2_retry_after_sleep polTwo polTwo "/e" "GET" "b/e" (outAll 429 (some "5"))
     1 0 0 none (mkErr 429 (some "5")) (mkResp 429 (some "5")) (by decide)
     rfl rfl rfl (by decide)).1⟩

/-- Claim C3: after a retriable failure (5xx or network failure) on attempt
`attempt + 1` with attempts remaining, the loop sleeps exactly
`min(initialDelay * backoffFactor ^ (attempt + 1 - 1), maxDelay)` ms; with
the 1000/2/10000 policy the consecutive delays are 1000, 2000, 4000, 8000,
then capped at 10000 ms. -/
theorem c3_backoff_formula {α : Type} (p : RetryPolicy) (e m u : String)
    (o : Nat → HttpOutcome α) (fuel calls attempt : Nat) (le : Option HttpErr)
    (err : HttpErr)
    (hinv : fuel + 1 + attempt = p.maxAttempts)
    (houtc : o calls = .failure err)
    (hretri : err.response = none ∨ ∃ r, err.response = some r ∧ 500 ≤ r.status)
    (hrem : attempt + 1 < p.maxAttempts) :
    (requestLoop p e m u o (fuel + 1) calls attempt le).trace.take 2 =
      [.httpCall (calls + 1),
       .sleep (.val ((min (p.initialDelay * p.backoffFactor ^ (attempt + 1 - 1))
         p.maxDelay : Nat) : Int))] ∧
    sleepsOf (request "key" "b" "/e" "GET" polSeven (outAll 500 none)).trace =
      [.val 1000, .val 2000, .val 4000, .val 8000, .val 10000, .val 10000] := by
  constructor
  · rcases hretri with hnet | ⟨r, herr, hs⟩
    · rw [requestLoop_sleep (by omega) houtc (classify_net_remain hnet hrem)]
      rfl
    · rw [requestLoop_sleep (by omega) houtc (classify_5xx_remain herr hs hrem)]
      rfl
  · decide

/-- Witness for C3: the first retry after a 500 under the default policy
sleeps exactly 1000 ms. -/
theorem c3_backoff_formula_witness :
    (outAll 500 none 0 = .failure (mkErr 500 none)) ∧
    ((mkErr 500 none).response = none ∨
      ∃ r, (mkErr 500 none).response = some r ∧ 500 ≤ r.status) ∧
    (0 + 1 < polDefault.maxAttempts) ∧
    (requestLoop polDefault "/e" "GET" "b/e" (outAll 500 none) (2 + 1) 0 0
      none).trace.take 2 = [.httpCall 1, .sleep (.val 1000)] :=
  ⟨rfl, Or.inr ⟨mkResp 500 none, rfl, by decide⟩, by decide,
   (c3_backoff_formula polDefault "/e" "GET" "b/e" (outAll 500 none) 2 0 0 none
     (mkErr 500 none) (by decide) rfl
     (Or.inr ⟨mkResp 500 none, rfl, by decide⟩) (by decide)).1⟩

/-- Counterexample to claim C4 as stated: the 404 message is capitalized
"Endpoint not found: ...", not "endpoint not found: ...", and the 401
message "Invalid API key" does not contain the lowercase string
"invalid API key". -/
theorem c4_message_case_counterexample :
    (request "key" "b" "/missing" "GET" polDefault (outAll 404 none)).result ≠
      .thrown "endpoint not found: /missing" ∧
    (request "key" "b" "/e" "GET" polDefault (outAll 401 none)).result =
      .thrown "Invalid API key" ∧
    strContains "Invalid API key" "invalid API key" = false :=
  ⟨by decide, by decide, by decide⟩

/-- Claim C4 (amended): for every retry policy with maxAttempts at least 1,
a 404 or 401 on the first attempt fails terminally after exactly 1 attempt
and no sleep, regardless of maxAttempts, with message
"Endpoint not found: {endpoint}" for 404 and "Invalid API key" for 401
(capitalized as in the source). -/
theorem c4_fatal_first_attempt {α : Type} (apiKey baseUrl endpoint method : String)
    (p : RetryPolicy) (o4 o1 : Nat → HttpOutcome α)
    (err4 err1 : HttpErr) (r4 r1 : RespInfo)
    (hmax : 1 ≤ p.maxAttempts)
    (ho4 : o4 0 = .failure err4) (hr4 : err4.response = some r4)
    (hs4 : r4.status = 404)
    (ho1 : o1 0 = .failure err1) (hr1 : err1.response = some r1)
    (hs1 : r1.status = 401) :
    ((request apiKey baseUrl endpoint method p o4).result =
        .thrown ("Endpoint not found: " ++ endpoint) ∧
      numCalls (request apiKey baseUrl endpoint method p o4).trace = 1 ∧
      sleepsOf (request apiKey baseUrl endpoint method p o4).trace = []) ∧
    ((request apiKey baseUrl endpoint method p o1).result =
        .thrown "Invalid API key" ∧
      numCalls (request apiKey baseUrl endpoint method p o1).trace = 1 ∧
      sleepsOf (request apiKey baseUrl endpoint method p o1).trace = []) := by
  obtain ⟨f, hf⟩ : ∃ f, p.maxAttempts = f + 1 := ⟨p.maxAttempts - 1, by omega⟩
  have hlt : (0 : Nat) < p.maxAttempts := by omega
  constructor
  · rw [request_result, request_trace, hf,
      requestLoop_throw hlt ho4 (classify_404 hr4 hs4)]
    refine ⟨rfl, by simp [numCalls_call_cons, numCalls_nil], rfl⟩
  · rw [request_result, request_trace, hf,
      requestLoop_throw hlt ho1 (classify_401 hr1 hs1)]
    refine ⟨rfl, by simp [numCalls_call_cons, numCalls_nil], rfl⟩

/-- Witness for C4 (amended): concrete 404 and 401 runs under the default
policy stop after one attempt with the capitalized messages. -/
theorem c4_fatal_first_attempt_witness :
    (1 ≤ polDefault.maxAttempts) ∧
    ((request "key" "b" "/e" "GET" polDefault (outAll 404 none)).result =
        .thrown "Endpoint not found: /e" ∧
      numCalls (request "key" "b" "/e" "GET" polDefault (outAll 404 none)).trace
        = 1 ∧
      sleepsOf (request "key" "b" "/e" "GET" polDefault (outAll 404 none)).trace
        = []) ∧
    ((request "key" "b" "/e" "GET" polDefault (outAll 401 none)).result =
        .thrown "Invalid API key" ∧
      numCalls (request "key" "b" "/e" "GET" polDefault (outAll 401 none)).trace
        = 1 ∧
      sleepsOf (request "key" "b" "/e" "GET" polDefault (outAll 401 none)).trace
        = []) :=
  ⟨by decide,
   (c4_fatal_first_attempt "key" "b" "/e" "GET" polDefault (outAll 404 none)
     (outAll 401 none) (mkErr 404 none) (mkErr 401 none) (mkResp 404 none)
     (mkResp 401 none) (by decide) rfl rfl rfl rfl rfl rfl).1,
   (c4_fatal_first_attempt "key" "b" "/e" "GET" polDefault (outAll 404 none)
     (outAll 401 none) (mkErr 404 none) (mkErr 401 none) (mkResp 404 none)
     (mkResp 401 none) (by decide) rfl rfl rfl rfl rfl rfl).2⟩

/-- Claim C5: a response below 500 other than 401, 404 and 429 terminates
the loop immediately — one HTTP call, a terminal error, no sleep and no
further log beyond the error line; and the loop proceeds to a further
attempt only after a 5xx, a network failure, or a 429 (the rate-limit path
the claim itself exempts from immediate termination). -/
theorem c5_retry_classification {α : Type} :
    (∀ (p : RetryPolicy) (e m u : String) (o : Nat → HttpOutcome α)
      (fuel calls attempt : Nat) (le : Option HttpErr) (err : HttpErr)
      (r : RespInfo),
      fuel + 1 + attempt = p.maxAttempts →
      o calls = .failure err → err.response = some r →
      r.status < 500 → r.status ≠ 404 → r.status ≠ 401 → r.status ≠ 429 →
      requestLoop p e m u o (fuel + 1) calls attempt le =
        { result := .thrown ("Instantly API error after " ++
            toString (attempt + 1) ++ " attempts: " ++ apiErrorOf err),
          attempt := attempt + 1,
          trace := [.httpCall (calls + 1)],
          logs := [.apiError e m u (attempt + 1) err.response err.message] }) ∧
    (∀ (apiKey baseUrl endpoint method : String) (p : RetryPolicy)
      (o : Nat → HttpOutcome α) (j : Nat),
      j + 1 < numCalls (request apiKey baseUrl endpoint method p o).trace →
      isContinuable (o j) = true) := by
  constructor
  · intro p e m u o fuel calls attempt le err r hinv houtc herr hlt5 h404 h401 h429
    rw [requestLoop_stop (by omega) houtc
      (Or.inl (classify_other4xx herr hlt5 h404 h401 h429))]
    rfl
  · intro apiKey baseUrl endpoint method p o j hj
    rw [request_trace] at hj
    exact requestLoop_mid_continuable p endpoint method (baseUrl ++ endpoint) o
      p.maxAttempts 0 0 none (by omega) j (Nat.zero_le j) (by omega)

/-- Witness for C5: a 400 on the first attempt under the default policy
stops at once with the terminal error and no sleep. -/
theorem c5_retry_classification_witness :
    (2 + 1 + 0 = polDefault.maxAttempts) ∧
    (outAll 400 none 0 = .failure (mkErr 400 none)) ∧
    ((mkResp 400 none).status < 500) ∧
    requestLoop polDefault "/e" "GET" "b/e" (outAll 400 none) (2 + 1) 0 0 none =
      { result := .thrown
          "Instantly API error after 1 attempts: Request failed with status code",
        attempt := 1, trace := [.httpCall 1],
        logs := [.apiError "/e" "GET" "b/e" 1 (some (mkResp 400 none))
          "Request failed with status code"] } :=
  ⟨rfl, rfl, by decide,
   (c5_retry_classification (α := Nat)).1 polDefault "/e" "GET" "b/e"
     (outAll 400 none) 2 0 0 none (mkErr 400 none) (mkResp 400 none) rfl rfl
     rfl (by decide) (by decide) (by decide) (by decide)⟩

/-- Claim C6: exhausting all attempts returns one terminal error embedding
the attempt count and the most specific cause of the last failure, preferring
the response body error field, then its message field, then the transport
error text; maxAttempts consecutive continuable failures consume exactly
maxAttempts attempts. -/
theorem c6_exhaustion_message {α : Type} (apiKey baseUrl endpoint method : String)
    (p : RetryPolicy) (o : Nat → HttpOutcome α) (errLast : HttpErr)
    (hmax : 1 ≤ p.maxAttempts)
    (hall : ∀ i, i < p.maxAttempts → isContinuable (o i) = true)
    (hlast : o (p.maxAttempts - 1) = .failure errLast) :
    ((request apiKey baseUrl endpoint method p o).result =
      .thrown ("Instantly API error after " ++ toString p.maxAttempts ++
        " attempts: " ++ apiErrorOf errLast) ∧
    numCalls (request apiKey baseUrl endpoint method p o).trace = p.maxAttempts) ∧
    (∀ (e2 : HttpErr) (r : RespInfo) (s : String), e2.response = some r →
      r.dataError = some s → s ≠ "" → apiErrorOf e2 = s) ∧
    (∀ (e2 : HttpErr) (r : RespInfo) (t : String), e2.response = some r →
      jsTruthy r.dataError = false → r.dataMessage = some t → t ≠ "" →
      apiErrorOf e2 = t) ∧
    (∀ (e2 : HttpErr) (r : RespInfo), e2.response = some r →
      jsTruthy r.dataError = false → jsTruthy r.dataMessage = false →
      apiErrorOf e2 = e2.message) ∧
    (∀ e2 : HttpErr, e2.response = none → apiErrorOf e2 = e2.message) := by
  refine ⟨?_, ?_, ?_, ?_, ?_⟩
  · obtain ⟨ha, hn, hres⟩ := requestLoop_all_continuable p endpoint method
      (baseUrl ++ endpoint) o p.maxAttempts 0 0 none (by omega)
      (fun i _ hi => hall i (by omega))
    obtain ⟨hresult, _⟩ := hres (by omega)
    constructor
    · rw [request_result, hresult]
      have h0 : (0 : Nat) + p.maxAttempts - 1 = p.maxAttempts - 1 := by omega
      rw [h0, hlast]
      rfl
    · rw [request_trace, hn]
  · intro e2 r s h1 h2 h3
    simp [apiErrorOf, h1, h2, jsTruthy, h3]
  · intro e2 r t h1 h2 h3 h4
    cases hde : r.dataError with
    | none => simp [apiErrorOf, h1, hde, h3, jsTruthy, h4]
    | some s =>
      have hs : s = "" := by
        rw [hde] at h2
        simp [jsTruthy] at h2
        exact h2
      simp [apiErrorOf, h1, hde, hs, h3, jsTruthy, h4]
  · intro e2 r h1 h2 h3
    cases hde : r.dataError with
    | none =>
      cases hdm : r.dataMessage with
      | none => simp [apiErrorOf, h1, hde, hdm, jsTruthy]
      | some t =>
        have ht : t = "" := by
          rw [hdm] at h3
          simp [jsTruthy] at h3
          exact h3
        simp [apiErrorOf, h1, hde, hdm, ht, jsTruthy]
    | some s =>
      have hs : s = "" := by
        rw [hde] at h2
        simp [jsTruthy] at h2
        exact h2
      cases hdm : r.dataMessage with
      | none => simp [apiErrorOf, h1, hde, hs, hdm, jsTruthy]
      | some t =>
        have ht : t = "" := by
          rw [hdm] at h3
          simp [jsTruthy] at h3
          exact h3
        simp [apiErrorOf, h1, hde, hs, hdm, ht, jsTruthy]
  · intro e2 h
    simp [apiErrorOf, h, jsTruthy]

/-- Witness for C6: three consecutive 500s whose body has an error field
yield "Instantly API error after 3 attempts: server overloaded" — the body
error field wins over the body message field and the transport text. -/
theorem c6_exhaustion_message_witness :
    (1 ≤ polDefault.maxAttempts) ∧
    (∀ i, i < polDefault.maxAttempts → isContinuable (outData i) = true) ∧
    (outData (polDefault.maxAttempts - 1) = .failure errData) ∧
    ((request "key" "b" "/e" "GET" polDefault outData).result =
      .thrown "Instantly API error after 3 attempts: server overloaded" ∧
     numCalls (request "key" "b" "/e" "GET" polDefault outData).trace =
       polDefault.maxAttempts) :=
  ⟨by decide, by decide, rfl,
   (c6_exhaustion_message "key" "b" "/e" "GET" polDefault outData errData
     (by decide) (by decide) rfl).1⟩

/-- Claim C7: a 2xx response on any attempt k (with k at most maxAttempts)
makes the loop return the parsed body unmodified at once — one more HTTP
call, no sleep, no log, attempt counter untouched. -/
theorem c7_success_immediate {α : Type} (p : RetryPolicy) (e m u : String)
    (o : Nat → HttpOutcome α) (fuel calls attempt : Nat) (le : Option HttpErr)
    (body : α)
    (hinv : fuel + 1 + attempt = p.maxAttempts)
    (houtc : o calls = .success body) :
    requestLoop p e m u o (fuel + 1) calls attempt le =
      { result := .ok body, attempt := attempt,
        trace := [.httpCall (calls + 1)], logs := [] } :=
  requestLoop_success (by omega) houtc

/-- Witness for C7: a success on attempt 2 of 3 returns the body 42 with no
further attempt and no sleep. -/
theorem c7_success_immediate_witness :
    (1 + 1 + 1 = polDefault.maxAttempts) ∧
    ((fun i => if i < 1 then HttpOutcome.failure (mkErr 500 none)
        else .success (42 : Nat)) 1 = .success 42) ∧
    requestLoop polDefault "/e" "GET" "b/e"
      (fun i => if i < 1 then HttpOutcome.failure (mkErr 500 none)
        else .success (42 : Nat)) (1 + 1) 1 1
      (some (mkErr 500 none)) =
      { result := .ok 42, attempt := 1, trace := [.httpCall 2], logs := [] } :=
  ⟨by decide, by decide,
    c7_success_immediate polDefault "/e" "GET" "b/e" _ 1 1 1
      (some (mkErr 500 none)) 42 (by decide) (by decide)⟩

/-- Claim C8: the log output of `request` never depends on the bearer
credential — two executions differing only in the API key produce identical
logs (the key flows only into the Authorization header). -/
theorem c8_logs_key_independent {α : Type} (key1 key2 baseUrl endpoint method : String)
    (p : RetryPolicy) (o : Nat → HttpOutcome α) :
    (request key1 baseUrl endpoint method p o).logs =
      (request key2 baseUrl endpoint method p o).logs := rfl

/-- Claim C9: with maxAttempts at least 1 the terminal-error construction is
reached only after at least one failed attempt, so the `lastError` it
dereferences is always defined; with maxAttempts 0 the loop body never runs
and the construction dereferences an undefined value. -/
theorem c9_last_error_defined :
    (∀ (α : Type) (apiKey baseUrl endpoint method : String) (p : RetryPolicy)
      (o : Nat → HttpOutcome α), 1 ≤ p.maxAttempts →
        (request apiKey baseUrl endpoint method p o).result ≠ .undefinedDeref) ∧
    (request "key" "b" "/e" "GET" polZero (outAll 400 none)).result =
      .undefinedDeref := by
  constructor
  · intro α apiKey baseUrl endpoint method p o hmax
    have hr : (request apiKey baseUrl endpoint method p o).result =
        (requestLoop p endpoint method (baseUrl ++ endpoint) o
          p.maxAttempts 0 0 none).result := rfl
    rw [hr]
    exact requestLoop_ne_undef p endpoint method (baseUrl ++ endpoint) o
      p.maxAttempts 0 0 none (by omega) (Or.inl (by omega))
  · decide

/-- Witness for C9: under the default policy a 400 run never produces the
undefined dereference. -/
theorem c9_last_error_defined_witness :
    1 ≤ polDefault.maxAttempts ∧
    (request "key" "b" "/e" "GET" polDefault (outAll 400 none)).result ≠
      .undefinedDeref :=
  ⟨by decide, c9_last_error_defined.1 Nat "key" "b" "/e" "GET" polDefault
    (outAll 400 none) (by decide)⟩

/-- Claim C10: rate-limited responses consume the attempt budget like other
failures — maxAttempts consecutive 429s make exactly maxAttempts HTTP calls,
drive the attempt counter to maxAttempts, end in the terminal error
reporting maxAttempts attempts, and never sleep after the final 429 (the
trace ends on the last HTTP call). -/
theorem c10_rate_limit_budget {α : Type} (apiKey baseUrl endpoint method : String)
    (p : RetryPolicy) (o : Nat → HttpOutcome α) (errLast : HttpErr)
    (hmax : 1 ≤ p.maxAttempts)
    (hall : ∀ i, i < p.maxAttempts → is429 (o i) = true)
    (hlast : o (p.maxAttempts - 1) = .failure errLast) :
    numCalls (request apiKey baseUrl endpoint method p o).trace = p.maxAttempts ∧
    (request apiKey baseUrl endpoint method p o).attempt = p.maxAttempts ∧
    (request apiKey baseUrl endpoint method p o).result =
      .thrown ("Instantly API error after " ++ toString p.maxAttempts ++
        " attempts: " ++ apiErrorOf errLast) ∧
    (request apiKey baseUrl endpoint method p o).trace.getLast? =
      some (.httpCall p.maxAttempts) := by
  obtain ⟨ha, hn, hres⟩ := requestLoop_all_continuable p endpoint method
    (baseUrl ++ endpoint) o p.maxAttempts 0 0 none (by omega)
    (fun i _ hi => is429_continuable (o i) (hall i (by omega)))
  obtain ⟨hresult, hlastcall⟩ := hres (by omega)
  refine ⟨?_, ?_, ?_, ?_⟩
  · rw [request_trace, hn]
  · rw [request_attempt, ha]
    omega
  · rw [request_result, hresult]
    have h0 : (0 : Nat) + p.maxAttempts - 1 = p.maxAttempts - 1 := by omega
    rw [h0, hlast]
    rfl
  · rw [request_trace, hlastcall]
    have h0 : (0 : Nat) + p.maxAttempts = p.maxAttempts := by omega
    rw [h0]

/-- Witness for C10: three consecutive 429s under the default policy make
exactly 3 attempts, report them in the terminal error, and end on the third
HTTP call with no trailing sleep. -/
theorem c10_rate_limit_budget_witness :
    (1 ≤ polDefault.maxAttempts) ∧
    (∀ i, i < polDefault.maxAttempts → is429 (outAll 429 (some "1") i) = true) ∧
    (outAll 429 (some "1") (polDefault.maxAttempts - 1) =
      .failure (mkErr 429 (some "1"))) ∧
    (numCalls (request "key" "b" "/e" "GET" polDefault
        (outAll 429 (some "1"))).trace = polDefault.maxAttempts ∧
     (request "key" "b" "/e" "GET" polDefault (outAll 429 (some "1"))).attempt =
       polDefault.maxAttempts ∧
     (request "key" "b" "/e" "GET" polDefault (outAll 429 (some "1"))).result =
       .thrown
         "Instantly API error after 3 attempts: Request failed with status code" ∧
     (request "key" "b" "/e" "GET" polDefault
        (outAll 429 (some "1"))).trace.getLast? =
       some (.httpCall polDefault.maxAttempts)) :=
  ⟨by decide, by decide, rfl,
   c10_rate_limit_budget "key" "b" "/e" "GET" polDefault (outAll 429 (some "1"))
     (mkErr 429 (some "1")) (by decide) (by decide) rfl⟩


end Instantly
